import Mathlib

/-!
Shallow embedding of `internal/aws/albec2/ec2.go` from the
aws-alb-ingress-controller repository, together with theorems settling the
frozen claims about its specification.

Conventions of the embedding:
* Go `(value, error)` multi-returns become explicit pairs or `Except`;
  a `nil` error is `Option.none`.
* AWS API calls are oracles passed in as function arguments; each operation
  also returns the list of network calls it made, so that "no network
  access" is statable.
* Go `interface{}` values stored in the cache become the `CacheVal` sum
  type; a failed Go type assertion (a runtime panic) is modelled as an
  `Except.error` carrying a distinguished message.
* Time is an abstract `Nat` clock in minutes, threaded through the cache
  operations.
-/

namespace albec2

/-! ### TTL cache

Modelled from the spec: the cache layer (`internal/aws/albcache`, this
repository's code, not under `src/`) per spec section 4.1: namespaced
`get`/`set` with per-entry expiry; a value set with ttl `T` is visible to
`get` until `T` elapses, after which it behaves as a miss. -/

/-- A subnet descriptor as used by this file: id, availability zone and tags
(`ec2.Subnet` fields dereferenced). -/
structure Subnet where
  SubnetId : String
  AvailabilityZone : String
  Tags : List (String × String)
deriving DecidableEq, Repr

/-- A VPC descriptor (`ec2.Vpc`), reduced to the id field this file uses. -/
structure Vpc where
  VpcId : String
deriving DecidableEq, Repr

/-- The shapes of values this file stores in the cache (`interface{}` in Go):
`*string`, `*ec2.Subnet`, `*ec2.Vpc`, `bool`. -/
inductive CacheVal where
  | str (s : String)
  | subnet (s : Subnet)
  | vpc (v : Vpc)
  | boolean (b : Bool)
deriving DecidableEq, Repr

/-- One cache entry: namespace, key, value and absolute expiry time
(set time + ttl, in minutes). -/
structure CacheEntry where
  ns : String
  key : String
  value : CacheVal
  expiresAt : Nat
deriving DecidableEq, Repr

/-- The process-wide cache: most recent entry first. -/
def Cache := List CacheEntry

instance : DecidableEq Cache := inferInstanceAs (DecidableEq (List CacheEntry))

instance : Repr Cache := inferInstanceAs (Repr (List CacheEntry))

/-- Modelled from the spec: `albcache.Get(cacheName, key)` — the most recent
entry under the namespace and key, a miss once its ttl has elapsed. -/
def cacheGet (now : Nat) (c : Cache) (ns key : String) : Option CacheVal :=
  match (List.find? (fun e => e.ns = ns ∧ e.key = key) c) with
  | some e => if now < e.expiresAt then some e.value else none
  | none => none

/-- Modelled from the spec: `albcache.Set(cacheName, key, value, ttl)` —
stores the value with expiry `now + ttl` (ttl in minutes). -/
def cacheSet (now : Nat) (c : Cache) (ns key : String) (v : CacheVal) (ttl : Nat) : Cache :=
  ⟨ns, key, v, now + ttl⟩ :: c

/-- The error message standing for a Go runtime panic on a failed type
assertion against a cached `interface{}` value. -/
def typeAssertionPanic : String := "panic: interface conversion on cached value"

instance {ε α : Type} [DecidableEq ε] [DecidableEq α] : DecidableEq (Except ε α) :=
  fun x y =>
    match x, y with
    | Except.ok a, Except.ok b =>
      if h : a = b then Decidable.isTrue (by rw [h])
      else Decidable.isFalse (by intro hc; cases hc; exact h rfl)
    | Except.ok _, Except.error _ => Decidable.isFalse (by intro hc; cases hc)
    | Except.error _, Except.ok _ => Decidable.isFalse (by intro hc; cases hc)
    | Except.error a, Except.error b =>
      if h : a = b then Decidable.isTrue (by rw [h])
      else Decidable.isFalse (by intro hc; cases hc; exact h rfl)

/-! ### Constants (ec2.go lines 28-42) -/

def instSpecifierTag : String := "instance"
def ManagedByKey : String := "ManagedBy"
def ManagedByValue : String := "alb-ingress"

def tagNameCluster : String := "kubernetes.io/cluster"

def tagNameSubnetInternalELB : String := "kubernetes.io/role/internal-elb"
def tagNameSubnetPublicELB : String := "kubernetes.io/role/elb"

/-- `GetSecurityGroupsCacheTTL = time.Minute * 60`, in minutes. -/
def GetSecurityGroupsCacheTTL : Nat := 60
/-- `GetSubnetsCacheTTL = time.Minute * 60`, in minutes. -/
def GetSubnetsCacheTTL : Nat := 60
/-- `IsNodeHealthyCacheTTL = time.Minute * 5`, in minutes. -/
def IsNodeHealthyCacheTTL : Nat := 5

/-- The scheme constants `elbv2.LoadBalancerSchemeEnumInternal` and
`elbv2.LoadBalancerSchemeEnumInternetFacing` from the AWS SDK. -/
def LoadBalancerSchemeEnumInternal : String := "internal"
def LoadBalancerSchemeEnumInternetFacing : String := "internet-facing"

/-! ### GetVPCID / GetVPC / instanceVPCIsValid (ec2.go lines 266-361) -/

/-- An EC2 instance as this file reads it: its VPC id pointer
(`nil` = `none`). -/
structure Ec2Instance where
  VpcId : Option String
deriving DecidableEq, Repr

/-- One reservation of a `DescribeInstances` response. -/
structure Reservation where
  Instances : List Ec2Instance
deriving DecidableEq, Repr

/-- A `DescribeInstances` response. -/
structure DescribeInstancesOutput where
  Reservations : List Reservation
deriving DecidableEq, Repr

/-- The identity document returned by the EC2 metadata service, reduced to
the one field this file reads. -/
structure IdentityDocument where
  InstanceID : String
deriving DecidableEq, Repr

/-- `instanceVPCIsValid` (ec2.go lines 344-361): validates that a
`DescribeInstances` response has at least one reservation, at least one
instance in the first reservation, and a non-nil non-empty VPC id.
Note the second message interpolates `len(o.Reservations)` — exactly as the
source does. -/
def instanceVPCIsValid (o : DescribeInstancesOutput) : Except String Unit :=
  if o.Reservations.length < 1 then
    Except.error ("When looking up VPC ID could not identify instance. Found " ++
      toString o.Reservations.length ++ " reservations in AWS call. Should have found atleast 1.")
  else if (o.Reservations.headD ⟨[]⟩).Instances.length < 1 then
    Except.error ("When looking up VPC ID could not identify instance. Found " ++
      toString o.Reservations.length ++ " instances in AWS call. Should have found atleast 1.")
  else
    match ((o.Reservations.headD ⟨[]⟩).Instances.headD ⟨none⟩).VpcId with
    | none => Except.error "When looking up VPC ID could not instance returned had a nil value for VPC."
    | some v =>
      if v = "" then
        Except.error "When looking up VPC ID could not instance returned had an empty value for VPC."
      else Except.ok ()

/-- The VPC id a validated `DescribeInstances` response carries
(`o.Reservations[0].Instances[0].VpcId` at ec2.go line 313). -/
def outputVpcId (o : DescribeInstancesOutput) : String :=
  (((o.Reservations.headD ⟨[]⟩).Instances.headD ⟨none⟩).VpcId).getD ""

/-- Result of an operation: the Go return values, the cache afterwards, and
the network calls made (in order). -/
structure VpcIdResult where
  result : Except String String
  cache : Cache
  calls : List String
deriving Repr

/-- `GetVPCID` (ec2.go lines 269-317). Resolution order: the `AWS_VPC_ID`
environment override, then the cache (namespace `EC2.GetVPCID`, fixed key
`""`, asserting the value is a `*string`), then the metadata identity
document followed by `DescribeInstances` on the named instance; a validated
fallback result is cached with a 60-minute ttl. Oracles: `env` is
`os.Getenv("AWS_VPC_ID")`, `mdDoc` the metadata call's outcome,
`describeInstances` the EC2 call's outcome keyed by instance id. -/
def GetVPCID (now : Nat) (env : String) (mdDoc : Except String IdentityDocument)
    (describeInstances : String → Except String DescribeInstancesOutput)
    (cache : Cache) : VpcIdResult :=
  if env ≠ "" then
    { result := Except.ok env, cache := cache, calls := [] }
  else
    match cacheGet now cache "EC2.GetVPCID" "" with
    | some (CacheVal.str v) => { result := Except.ok v, cache := cache, calls := [] }
    | some _ => { result := Except.error typeAssertionPanic, cache := cache, calls := [] }
    | none =>
      match mdDoc with
      | Except.error e =>
        { result := Except.error e, cache := cache,
          calls := ["EC2Metadata.GetInstanceIdentityDocument"] }
      | Except.ok doc =>
        match describeInstances doc.InstanceID with
        | Except.error e =>
          { result := Except.error e, cache := cache,
            calls := ["EC2Metadata.GetInstanceIdentityDocument", "EC2.DescribeInstances"] }
        | Except.ok o =>
          match instanceVPCIsValid o with
          | Except.error e =>
            { result := Except.error e, cache := cache,
              calls := ["EC2Metadata.GetInstanceIdentityDocument", "EC2.DescribeInstances"] }
          | Except.ok _ =>
            let vpc := outputVpcId o
            { result := Except.ok vpc,
              cache := cacheSet now cache "EC2.GetVPCID" "" (CacheVal.str vpc) 60,
              calls := ["EC2Metadata.GetInstanceIdentityDocument", "EC2.DescribeInstances"] }

/-- Result of `GetVPC`: the Go return values, the cache afterwards, the
network calls made. -/
structure VpcResult where
  result : Except String Vpc
  cache : Cache
  calls : List String
deriving Repr

/-- `GetVPC` (ec2.go lines 319-341). Note it uses the same cache namespace
`"EC2.GetVPCID"` as `GetVPCID`, keyed by `*id`, asserting the cached value
is a `*ec2.Vpc`. A describe returning a count other than 1 is an error;
a fresh result is cached with a 60-minute ttl. -/
def GetVPC (now : Nat) (id : String) (describeVpcs : String → Except String (List Vpc))
    (cache : Cache) : VpcResult :=
  match cacheGet now cache "EC2.GetVPCID" id with
  | some (CacheVal.vpc v) => { result := Except.ok v, cache := cache, calls := [] }
  | some _ => { result := Except.error typeAssertionPanic, cache := cache, calls := [] }
  | none =>
    match describeVpcs id with
    | Except.error e =>
      { result := Except.error e, cache := cache, calls := ["EC2.DescribeVpcs"] }
    | Except.ok vs =>
      if vs.length ≠ 1 then
        { result := Except.error ("Invalid amount of VPCs " ++ toString vs.length ++
            " returned for " ++ id),
          cache := cache, calls := ["EC2.DescribeVpcs"] }
      else
        { result := Except.ok (vs.headD ⟨""⟩),
          cache := cacheSet now cache "EC2.GetVPCID" id (CacheVal.vpc (vs.headD ⟨""⟩)) 60,
          calls := ["EC2.DescribeVpcs"] }

/-! ### GetSubnets / GetSecurityGroups (ec2.go lines 76-171) -/

/-- One filter of a describe request (`ec2.Filter`). -/
structure Filter where
  Name : String
  Values : List String
deriving DecidableEq, Repr

/-- A `DescribeSubnets` (or `DescribeSecurityGroups`) request as this file
builds it: just its filters. -/
structure DescribeSubnetsInput where
  Filters : List Filter
deriving DecidableEq, Repr

/-- Modelled from the spec: `util.EC2Tags(tags).Get(key)`
(`pkg/util/types`, this repository's code not under `src/`) — the value of
the tag with the given key, if present. -/
def tagsGet (tags : List (String × String)) (key : String) : Option String :=
  (tags.find? (fun t => t.1 = key)).map (fun t => t.2)

/-- The cache-partition loop shared verbatim by `GetSubnets` (ec2.go lines
85-93) and `GetSecurityGroups` (lines 134-142): for each requested name, a
cache hit appends the cached `*string` to the result, a miss appends the
name to `queryNames`; a wrongly-typed cached value is a panic. Returns
(hit values, queryNames), each in request order. -/
def partitionCached (now : Nat) (cache : Cache) (cacheName : String) :
    List String → Except String (List String × List String)
  | [] => Except.ok ([], [])
  | n :: rest =>
    match cacheGet now cache cacheName n with
    | some (CacheVal.str v) =>
      match partitionCached now cache cacheName rest with
      | Except.ok (hits, misses) => Except.ok (v :: hits, misses)
      | Except.error e => Except.error e
    | some _ => Except.error typeAssertionPanic
    | none =>
      match partitionCached now cache cacheName rest with
      | Except.ok (hits, misses) => Except.ok (hits, n :: misses)
      | Except.error e => Except.error e

/-- The back-fill loop of `GetSubnets` (ec2.go lines 115-121): for each
returned subnet carrying a `Name` tag, cache name→id with the subnets ttl
and append the id; subnets without the tag are skipped. -/
def cacheSubnetsLoop (now : Nat) : List Subnet → Cache → (List String × Cache)
  | [], c => ([], c)
  | s :: rest, c =>
    match tagsGet s.Tags "Name" with
    | some v =>
      let c' := cacheSet now c "EC2.GetSubnets" v (CacheVal.str s.SubnetId) GetSubnetsCacheTTL
      let (ids, c'') := cacheSubnetsLoop now rest c'
      (s.SubnetId :: ids, c'')
    | none => cacheSubnetsLoop now rest c

/-- Result of `GetSubnets`/`GetSecurityGroups`: the Go return values, the
cache afterwards, and the describe queries issued (in order). -/
structure NamedQueryResult where
  ids : List String
  err : Option String
  cache : Cache
  queries : List DescribeSubnetsInput
deriving Repr

/-- `GetSubnets` (ec2.go lines 76-123). Resolves the VPC id via `GetVPCID`,
partitions the requested names into cache hits and misses, and — when any
miss exists — issues one `DescribeSubnets` query. Note the `tag:Name`
filter is built from `names` (all requested names), not from `queryNames`
(source line 102). On a describe failure the cache-hit ids accompany the
error. -/
def GetSubnets (now : Nat) (env : String) (mdDoc : Except String IdentityDocument)
    (describeInstances : String → Except String DescribeInstancesOutput)
    (describeSubnets : DescribeSubnetsInput → Except String (List Subnet))
    (cache : Cache) (names : List String) : NamedQueryResult :=
  let vr := GetVPCID now env mdDoc describeInstances cache
  match vr.result with
  | Except.error e => { ids := [], err := some e, cache := vr.cache, queries := [] }
  | Except.ok vpcID =>
    match partitionCached now vr.cache "EC2.GetSubnets" names with
    | Except.error e => { ids := [], err := some e, cache := vr.cache, queries := [] }
    | Except.ok (subnets, queryNames) =>
      if queryNames = [] then
        { ids := subnets, err := none, cache := vr.cache, queries := [] }
      else
        let inp : DescribeSubnetsInput :=
          { Filters := [ { Name := "tag:Name", Values := names },
                         { Name := "vpc-id", Values := [vpcID] } ] }
        match describeSubnets inp with
        | Except.error e =>
          { ids := subnets, err := some ("Unable to fetch subnets: " ++ e),
            cache := vr.cache, queries := [inp] }
        | Except.ok out =>
          let (fresh, c') := cacheSubnetsLoop now out vr.cache
          { ids := subnets ++ fresh, err := none, cache := c', queries := [inp] }

/-- A security group as this file reads it: id and tags. -/
structure SecurityGroup where
  GroupId : String
  Tags : List (String × String)
deriving DecidableEq, Repr

/-- The back-fill loop of `GetSecurityGroups` (ec2.go lines 164-168): every
returned group is cached under its `Name` tag value (empty string when the
tag is absent) and its id appended. -/
def cacheSGsLoop (now : Nat) : List SecurityGroup → Cache → (List String × Cache)
  | [], c => ([], c)
  | g :: rest, c =>
    let name := (tagsGet g.Tags "Name").getD ""
    let c' := cacheSet now c "EC2.GetSecurityGroups" name (CacheVal.str g.GroupId)
      GetSecurityGroupsCacheTTL
    let (ids, c'') := cacheSGsLoop now rest c'
    (g.GroupId :: ids, c'')

/-- `GetSecurityGroups` (ec2.go lines 125-171). Same cache/miss pattern as
`GetSubnets`, except the `tag:Name` filter is (correctly) built from
`queryNames`. On a describe failure the cache-hit ids accompany the
error. -/
def GetSecurityGroups (now : Nat) (env : String) (mdDoc : Except String IdentityDocument)
    (describeInstances : String → Except String DescribeInstancesOutput)
    (describeSecurityGroups : DescribeSubnetsInput → Except String (List SecurityGroup))
    (cache : Cache) (names : List String) : NamedQueryResult :=
  let vr := GetVPCID now env mdDoc describeInstances cache
  match vr.result with
  | Except.error e => { ids := [], err := some e, cache := vr.cache, queries := [] }
  | Except.ok vpcID =>
    match partitionCached now vr.cache "EC2.GetSecurityGroups" names with
    | Except.error e => { ids := [], err := some e, cache := vr.cache, queries := [] }
    | Except.ok (sgs, queryNames) =>
      if queryNames = [] then
        { ids := sgs, err := none, cache := vr.cache, queries := [] }
      else
        let inp : DescribeSubnetsInput :=
          { Filters := [ { Name := "tag:Name", Values := queryNames },
                         { Name := "vpc-id", Values := [vpcID] } ] }
        match describeSecurityGroups inp with
        | Except.error e =>
          { ids := sgs, err := some ("Unable to fetch security groups: " ++ e),
            cache := vr.cache, queries := [inp] }
        | Except.ok out =>
          let (fresh, c') := cacheSGsLoop now out vr.cache
          { ids := sgs ++ fresh, err := none, cache := c', queries := [inp] }

/-! ### ClusterSubnets (ec2.go lines 376-466) -/

/-- `subnetIsUsable` (ec2.go lines 459-466): false iff some already-admitted
subnet shares the new subnet's availability zone. -/
def subnetIsUsable (nw : Subnet) : List Subnet → Bool
  | [] => true
  | s :: rest =>
    if nw.AvailabilityZone = s.AvailabilityZone then false else subnetIsUsable nw rest

/-- The characters of a reversed string up to (excluding) the first `/`. -/
def takeUntilSlash : List Char → List Char
  | [] => []
  | c :: rest => if c = '/' then [] else c :: takeUntilSlash rest

/-- `strings.Split(arn, "/")` followed by taking the last element
(ec2.go lines 401-402): the suffix of the arn after its last `/`, or the
whole arn when it has none. -/
def arnSubnetID (arn : String) : String :=
  String.mk ((takeUntilSlash arn.data.reverse).reverse)

/-- Accumulator of the candidate scan of `ClusterSubnets`: the admitted
subnets, their ids (`out`), and the ids of cache misses (`filterValues`). -/
structure ScanAcc where
  useableSubnets : List Subnet
  out : List String
  filterValues : List String
deriving DecidableEq, Repr

/-- The inner tag loop of `ClusterSubnets` (ec2.go lines 399-413) for one
subnet reference: each tag equal to the required key triggers a cache
consult; a hit is admitted when usable, a miss records the id in
`filterValues`; a wrongly-typed cached value is a panic. -/
def clusterScanTags (now : Nat) (cache : Cache) (key subnetID : String) :
    List (String × String) → ScanAcc → Except String ScanAcc
  | [], acc => Except.ok acc
  | t :: rest, acc =>
    if t.1 = key then
      match cacheGet now cache "ClusterSubnets" subnetID with
      | some (CacheVal.subnet s) =>
        let acc' :=
          if subnetIsUsable s acc.useableSubnets then
            { acc with useableSubnets := acc.useableSubnets ++ [s],
                       out := acc.out ++ [s.SubnetId] }
          else acc
        clusterScanTags now cache key subnetID rest acc'
      | some _ => Except.error typeAssertionPanic
      | none =>
        clusterScanTags now cache key subnetID rest
          { acc with filterValues := acc.filterValues ++ [subnetID] }
    else clusterScanTags now cache key subnetID rest acc

/-- The outer resource loop of `ClusterSubnets` (ec2.go lines 398-414) over
the tag-index mapping arn → tags, in discovery order. -/
def clusterScanResources (now : Nat) (cache : Cache) (key : String) :
    List (String × List (String × String)) → ScanAcc → Except String ScanAcc
  | [], acc => Except.ok acc
  | (arn, tags) :: rest, acc =>
    match clusterScanTags now cache key (arnSubnetID arn) tags acc with
    | Except.ok acc' => clusterScanResources now cache key rest acc'
    | Except.error e => Except.error e

/-- The admission loop of `ClusterSubnets` over the describe response
(ec2.go lines 434-440): each usable subnet is admitted, its id appended and
the subnet cached under its id for 60 minutes. -/
def clusterAdmitFetched (now : Nat) :
    List Subnet → List Subnet → List String → Cache → (List Subnet × List String × Cache)
  | [], useable, out, c => (useable, out, c)
  | s :: rest, useable, out, c =>
    if subnetIsUsable s useable then
      clusterAdmitFetched now rest (useable ++ [s]) (out ++ [s.SubnetId])
        (cacheSet now c "ClusterSubnets" s.SubnetId (CacheVal.subnet s) 60)
    else clusterAdmitFetched now rest useable out c

/-- Modelled from the spec: `log.Prettify` (`pkg/util/log`, this
repository's code not under `src/`) rendering an identifier list into the
error message. -/
def Prettify (xs : List String) : String :=
  "[" ++ String.intercalate "," xs ++ "]"

/-- The scheme → required-tag-key selection of `ClusterSubnets`
(ec2.go lines 384-390): `internal` and `internet-facing` map to their role
tag keys, anything else is an invalid-scheme error. -/
def clusterSubnetsTagKey (scheme : String) : Except String String :=
  if scheme = LoadBalancerSchemeEnumInternal then Except.ok tagNameSubnetInternalELB
  else if scheme = LoadBalancerSchemeEnumInternetFacing then Except.ok tagNameSubnetPublicELB
  else Except.error ("Invalid scheme [" ++ scheme ++ "]")

/-- The diversity error of `ClusterSubnets` (ec2.go lines 442-450),
interpolating `tagNameCluster`, `tagNameSubnetInternalELB` and the
prettified partial set. -/
def clusterSubnetsDiversityError (out : List String) : String :=
  "Retrieval of subnets failed to resolve 2 qualified subnets. Subnets must contain the " ++
  tagNameCluster ++
  "/<cluster name> tag with a value of shared or owned and the " ++
  tagNameSubnetInternalELB ++
  " tag signifying it should be used for ALBs Additionally, there must be at least 2 subnets with unique availability zones as required by ALBs. Either tag subnets to meet this requirement or use the subnets annotation on the ingress resource to explicitly call out what subnets to use for ALB creation. The subnets that did resolve were " ++
  Prettify out ++ "."

/-- Lexicographic comparison of character lists, the order Go's
`sort.StringSlice` uses (byte-wise `<=` on strings; identical on the ASCII
identifiers this file handles). -/
def charListLe : List Char → List Char → Bool
  | [], _ => true
  | _ :: _, [] => false
  | a :: as, b :: bs => if a = b then charListLe as bs else decide (a < b)

/-- String comparison via `charListLe`. -/
def strLe (a b : String) : Bool := charListLe a.data b.data

/-- `sort.Sort(out)` on a string slice: ascending lexicographic sort. -/
def sortStrings (l : List String) : List String :=
  List.insertionSort (fun a b => strLe a b = true) l

/-- Result of `ClusterSubnets`: the Go return values, the cache afterwards,
and the network calls made (in order). -/
structure ClusterSubnetsResult where
  result : Except String (List String)
  cache : Cache
  calls : List String
deriving Repr

/-- `ClusterSubnets` (ec2.go lines 377-454). Validates the scheme, fetches
the cluster tag index, scans the subnet references (admitting cache hits),
and — only when cache misses exist — issues one `DescribeSubnets` query by
subnet id, admits its usable results, enforces the 2-member minimum and
returns the sorted ids. When every candidate is a cache hit the scan result
is sorted and returned immediately (ec2.go lines 416-419), before the
minimum-size check. -/
def ClusterSubnets (now : Nat) (scheme : String)
    (getClusterResources : Except String (List (String × List (String × String))))
    (describeSubnets : DescribeSubnetsInput → Except String (List Subnet))
    (cache : Cache) : ClusterSubnetsResult :=
  match clusterSubnetsTagKey scheme with
  | Except.error e => { result := Except.error e, cache := cache, calls := [] }
  | Except.ok key =>
    match getClusterResources with
    | Except.error e =>
      { result := Except.error ("Failed to get AWS tags. Error: " ++ e), cache := cache,
        calls := ["RGT.GetClusterResources"] }
    | Except.ok resources =>
      match clusterScanResources now cache key resources ⟨[], [], []⟩ with
      | Except.error e =>
        { result := Except.error e, cache := cache, calls := ["RGT.GetClusterResources"] }
      | Except.ok acc =>
        if acc.filterValues = [] then
          { result := Except.ok (sortStrings acc.out), cache := cache,
            calls := ["RGT.GetClusterResources"] }
        else
          let inp : DescribeSubnetsInput :=
            { Filters := [ { Name := "subnet-id", Values := acc.filterValues } ] }
          match describeSubnets inp with
          | Except.error e =>
            { result := Except.error ("Unable to fetch subnets: " ++ e), cache := cache,
              calls := ["RGT.GetClusterResources", "EC2.DescribeSubnets"] }
          | Except.ok fetched =>
            let (_, out2, c2) :=
              clusterAdmitFetched now fetched acc.useableSubnets acc.out cache
            if out2.length < 2 then
              { result := Except.error (clusterSubnetsDiversityError out2), cache := c2,
                calls := ["RGT.GetClusterResources", "EC2.DescribeSubnets"] }
            else
              { result := Except.ok (sortStrings out2), cache := c2,
                calls := ["RGT.GetClusterResources", "EC2.DescribeSubnets"] }

/-! ### IsNodeHealthy (ec2.go lines 469-498) -/

/-- One entry of a `DescribeInstanceStatus` response: instance id and state
code. -/
structure InstanceStatus where
  InstanceId : String
  Code : Int
deriving DecidableEq, Repr

/-- The response loop of `IsNodeHealthy` (ec2.go lines 485-495): the first
status whose id matches decides the verdict (`Code = 16` means running);
no match means no verdict. -/
def scanInstanceStatuses (instanceid : String) : List InstanceStatus → Option Bool
  | [] => none
  | st :: rest =>
    if st.InstanceId ≠ instanceid then scanInstanceStatuses instanceid rest
    else if st.Code = 16 then some true
    else some false

/-- Result of `IsNodeHealthy`: the Go return values, the cache afterwards,
and whether a `DescribeInstanceStatus` query was issued. -/
structure NodeHealthResult where
  healthy : Bool
  err : Option String
  cache : Cache
  queried : Bool
deriving Repr

/-- `IsNodeHealthy` (ec2.go lines 469-498). A cached verdict (namespace
`ec2.IsNodeHealthy`, 5-minute ttl) is returned without a query; otherwise
the status query runs and the first matching status's verdict is cached and
returned; an absent id yields `false` with no cache write. -/
def IsNodeHealthy (now : Nat) (instanceid : String)
    (describeInstanceStatus : String → Except String (List InstanceStatus))
    (cache : Cache) : NodeHealthResult :=
  match cacheGet now cache "ec2.IsNodeHealthy" instanceid with
  | some (CacheVal.boolean b) => { healthy := b, err := none, cache := cache, queried := false }
  | some _ =>
    { healthy := false, err := some typeAssertionPanic, cache := cache, queried := false }
  | none =>
    match describeInstanceStatus instanceid with
    | Except.error e =>
      { healthy := false,
        err := some ("Unable to DescribeInstanceStatus on " ++ instanceid ++ ": " ++ e),
        cache := cache, queried := true }
    | Except.ok statuses =>
      match scanInstanceStatuses instanceid statuses with
      | some b =>
        { healthy := b, err := none,
          cache := cacheSet now cache "ec2.IsNodeHealthy" instanceid (CacheVal.boolean b)
            IsNodeHealthyCacheTTL,
          queried := true }
      | none => { healthy := false, err := none, cache := cache, queried := true }

/-! ### DeleteSecurityGroupByID and its retryer (ec2.go lines 224-239 and
500-516) -/

/-- `deleteSecurityGroupRetryer` (ec2.go lines 500-502): wraps the
transport's default retryer, here reduced to its `ShouldRetry` predicate on
the failure code. -/
structure deleteSecurityGroupRetryer where
  Retryer : String → Bool

/-- `deleteSecurityGroupRetryer.ShouldRetry` (ec2.go lines 504-512): retry
on the `DependencyViolation` code, otherwise fall back to the wrapped
retryer's rules. -/
def deleteSecurityGroupRetryer.ShouldRetry (r : deleteSecurityGroupRetryer)
    (code : String) : Bool :=
  if code = "DependencyViolation" then true else r.Retryer code

/-- `deleteSecurityGroupRetryer.MaxRetries` (ec2.go lines 514-516). -/
def deleteSecurityGroupRetryer.MaxRetries (_ : deleteSecurityGroupRetryer) : Nat := 20

/-- Modelled from the spec: the transport's retry loop (the AWS SDK request
send loop, not under `src/`), per spec section 4.6: attempts are numbered
from `k`; a failing attempt is followed by another iff the retryer's
`ShouldRetry` accepts its code and attempts remain (`left` more allowed
after the current one, keeping the total bounded). Returns the outcome and
the number of the last attempt made. -/
def retryLoopFrom (shouldRetry : String → Bool) (outcome : Nat → Except String Unit) :
    Nat → Nat → Except String Unit × Nat
  | k, left =>
    match outcome k with
    | Except.ok _ => (Except.ok (), k)
    | Except.error c =>
      if shouldRetry c then
        match left with
        | 0 => (Except.error c, k)
        | l + 1 => retryLoopFrom shouldRetry outcome (k + 1) l
      else (Except.error c, k)

/-- `DeleteSecurityGroupByID` (ec2.go lines 225-239): issues the deletion
with the request's retryer replaced by `deleteSecurityGroupRetryer` wrapping
the default; the transport loop (modelled from the spec, bounded at
`MaxRetries` = 20 attempts total) decides each retry. `outcome k` is the
result of attempt `k` (1-based); the pair returned is the overall outcome
and the number of the last attempt made. -/
def DeleteSecurityGroupByID (defaultShouldRetry : String → Bool)
    (outcome : Nat → Except String Unit) : Except String Unit × Nat :=
  let r : deleteSecurityGroupRetryer := { Retryer := defaultShouldRetry }
  retryLoopFrom r.ShouldRetry outcome 1 (r.MaxRetries - 1)

/-! ### Characterizations used by the theorems -/

/-- One admission step of the availability-zone deduplication: admit the
candidate iff `subnetIsUsable` accepts it against the already-admitted
list. -/
def admitStep (acc : List Subnet) (s : Subnet) : List Subnet :=
  if subnetIsUsable s acc then acc ++ [s] else acc

/-- First-seen-wins admission over a candidate list in discovery order. -/
def admitFold (cands : List Subnet) : List Subnet :=
  List.foldl admitStep [] cands

/-- The cache-hit subnets the inner tag loop of `ClusterSubnets` encounters
for one subnet reference, in order. -/
def clusterTagHitList (now : Nat) (cache : Cache) (key subnetID : String) :
    List (String × String) → List Subnet
  | [] => []
  | t :: rest =>
    if t.1 = key then
      match cacheGet now cache "ClusterSubnets" subnetID with
      | some (CacheVal.subnet s) => s :: clusterTagHitList now cache key subnetID rest
      | _ => clusterTagHitList now cache key subnetID rest
    else clusterTagHitList now cache key subnetID rest

/-- The cache-hit subnets the candidate scan of `ClusterSubnets` encounters,
in discovery order. -/
def clusterHitList (now : Nat) (cache : Cache) (key : String) :
    List (String × List (String × String)) → List Subnet
  | [] => []
  | (arn, tags) :: rest =>
    clusterTagHitList now cache key (arnSubnetID arn) tags ++
      clusterHitList now cache key rest

/-! ## Theorems -/

/-- C7: `ClusterSubnets("internal")` and `ClusterSubnets("internet-facing")`
select distinct ownership-role tag keys, and every other scheme value fails
with a validation error before any network access is made (no calls are
issued). -/
theorem clusterSubnets_scheme_validation
    (now : Nat) (s : String)
    (rgt : Except String (List (String × List (String × String))))
    (d : DescribeSubnetsInput → Except String (List Subnet)) (cache : Cache)
    (h1 : s ≠ LoadBalancerSchemeEnumInternal)
    (h2 : s ≠ LoadBalancerSchemeEnumInternetFacing) :
    clusterSubnetsTagKey LoadBalancerSchemeEnumInternal =
      Except.ok tagNameSubnetInternalELB ∧
    clusterSubnetsTagKey LoadBalancerSchemeEnumInternetFacing =
      Except.ok tagNameSubnetPublicELB ∧
    tagNameSubnetInternalELB ≠ tagNameSubnetPublicELB ∧
    ClusterSubnets now s rgt d cache =
      { result := Except.error ("Invalid scheme [" ++ s ++ "]"), cache := cache,
        calls := [] } := by
  refine ⟨by decide, by decide, by decide, ?_⟩
  simp [ClusterSubnets, clusterSubnetsTagKey, h1, h2]

/-- Closed instance of `clusterSubnets_scheme_validation` at the scheme
`"internal-facing"`. -/
theorem clusterSubnets_scheme_validation_witness :
    clusterSubnetsTagKey LoadBalancerSchemeEnumInternal =
      Except.ok tagNameSubnetInternalELB ∧
    clusterSubnetsTagKey LoadBalancerSchemeEnumInternetFacing =
      Except.ok tagNameSubnetPublicELB ∧
    tagNameSubnetInternalELB ≠ tagNameSubnetPublicELB ∧
    ClusterSubnets 0 "internal-facing" (Except.ok []) (fun _ => Except.ok []) [] =
      { result := Except.error ("Invalid scheme [" ++ "internal-facing" ++ "]"),
        cache := [], calls := [] } :=
  clusterSubnets_scheme_validation 0 "internal-facing" (Except.ok [])
    (fun _ => Except.ok []) [] (by decide) (by decide)

/-- C9: the validation branch for "zero instances in the first reservation"
emits a message claiming an instance count but interpolates the reservation
count: on a response with 2 reservations whose first holds 0 instances, the
error reads "Found 2 instances" although the faulty collection (the
instances of the first reservation) has 0 members. -/
theorem instanceVPCIsValid_wrong_count_in_message :
    instanceVPCIsValid ⟨[⟨[]⟩, ⟨[]⟩]⟩ =
      Except.error ("When looking up VPC ID could not identify instance. Found " ++
        "2" ++ " instances in AWS call. Should have found atleast 1.") ∧
    (DescribeInstancesOutput.Reservations ⟨[⟨[]⟩, ⟨[]⟩]⟩).length = 2 ∧
    ((DescribeInstancesOutput.Reservations ⟨[⟨[]⟩, ⟨[]⟩]⟩).headD ⟨[]⟩).Instances.length = 0 := by
  refine ⟨?_, by decide, by decide⟩
  decide

/-- C3: with `"subnet-a"` pre-cached and the request
`["subnet-a","subnet-b"]`, `GetSubnets` issues exactly one batched query,
but its `tag:Name` filter carries both requested names — including the
cache hit `"subnet-a"` — rather than only the cache miss `"subnet-b"`
(ec2.go line 102 passes `names`, not `queryNames`); the result then holds
the cached id, a duplicate of it, and the freshly resolved id. -/
theorem getSubnets_filter_uses_all_names :
    (GetSubnets 0 "vpc-1" (Except.error "unused") (fun _ => Except.error "unused")
      (fun _ => Except.ok [⟨"subnet-001", "az-a", [("Name", "subnet-a")]⟩,
                           ⟨"subnet-002", "az-b", [("Name", "subnet-b")]⟩])
      [⟨"EC2.GetSubnets", "subnet-a", CacheVal.str "subnet-001", 100⟩]
      ["subnet-a", "subnet-b"]).queries =
      [{ Filters := [ { Name := "tag:Name", Values := ["subnet-a", "subnet-b"] },
                      { Name := "vpc-id", Values := ["vpc-1"] } ] }] ∧
    ["subnet-a", "subnet-b"] ≠ ["subnet-b"] ∧
    (GetSubnets 0 "vpc-1" (Except.error "unused") (fun _ => Except.error "unused")
      (fun _ => Except.ok [⟨"subnet-001", "az-a", [("Name", "subnet-a")]⟩,
                           ⟨"subnet-002", "az-b", [("Name", "subnet-b")]⟩])
      [⟨"EC2.GetSubnets", "subnet-a", CacheVal.str "subnet-001", 100⟩]
      ["subnet-a", "subnet-b"]).ids = ["subnet-001", "subnet-001", "subnet-002"] := by
  refine ⟨?_, by decide, ?_⟩ <;> decide

/-- C1 counterexample: when every candidate is a cache hit, `ClusterSubnets`
returns before the minimum-size check (ec2.go lines 416-419): with a single
cache-hit candidate the call succeeds with a 1-element admitted set instead
of failing. -/
theorem clusterSubnets_all_cache_hits_skips_min_check :
    (ClusterSubnets 0 "internal"
      (Except.ok [("arn:aws:ec2:us:acct:subnet/subnet-1",
        [(tagNameSubnetInternalELB, "")])])
      (fun _ => Except.error "unused")
      [⟨"ClusterSubnets", "subnet-1", CacheVal.subnet ⟨"subnet-1", "az-a", []⟩, 100⟩]).result =
      Except.ok ["subnet-1"] ∧
    (["subnet-1"] : List String).length < 2 := by
  refine ⟨?_, by decide⟩
  decide

/-- C5 counterexample: `GetVPC` and `GetVPCID` share the cache namespace
`"EC2.GetVPCID"`. After a fallback `GetVPCID` run caches its `*string`
result under the fixed key `""`, a `GetVPC` call with the empty id reads
exactly that entry and its `*ec2.Vpc` type assertion fails (a Go panic). -/
theorem getVPC_empty_id_observes_getVPCID_write :
    (GetVPCID 0 "" (Except.ok ⟨"i-1"⟩)
      (fun _ => Except.ok ⟨[⟨[⟨some "vpc-123"⟩]⟩]⟩) []).result = Except.ok "vpc-123" ∧
    cacheGet 0 (GetVPCID 0 "" (Except.ok ⟨"i-1"⟩)
      (fun _ => Except.ok ⟨[⟨[⟨some "vpc-123"⟩]⟩]⟩) []).cache "EC2.GetVPCID" "" =
      some (CacheVal.str "vpc-123") ∧
    (GetVPC 0 "" (fun _ => Except.ok [])
      (GetVPCID 0 "" (Except.ok ⟨"i-1"⟩)
        (fun _ => Except.ok ⟨[⟨[⟨some "vpc-123"⟩]⟩]⟩) []).cache).result =
      Except.error typeAssertionPanic := by
  refine ⟨?_, ?_, ?_⟩ <;> decide

/-- The last attempt made by the retry loop never exceeds the first attempt
number plus the allowed extra attempts. -/
theorem retryLoopFrom_last_le (sr : String → Bool) (o : Nat → Except String Unit) :
    ∀ left k, ∃ res n, retryLoopFrom sr o k left = (res, n) ∧ n ≤ k + left := by
  intro left
  induction left with
  | zero =>
    intro k
    unfold retryLoopFrom
    cases h : o k with
    | ok v => exact ⟨Except.ok (), k, rfl, by omega⟩
    | error c =>
      cases hsr : sr c with
      | true => exact ⟨Except.error c, k, by simp [hsr], by omega⟩
      | false => exact ⟨Except.error c, k, by simp [hsr], by omega⟩
  | succ l ih =>
    intro k
    unfold retryLoopFrom
    cases h : o k with
    | ok v => exact ⟨Except.ok (), k, rfl, by omega⟩
    | error c =>
      cases hsr : sr c with
      | true =>
        obtain ⟨res, n, heq, hle⟩ := ih (k + 1)
        exact ⟨res, n, by simp [hsr, heq], by omega⟩
      | false => exact ⟨Except.error c, k, by simp [hsr], by omega⟩

/-- If every attempt before `k + left` fails with the dependency code and
attempt `k + left` succeeds, the retry loop succeeds at attempt
`k + left`. -/
theorem retryLoopFrom_dep_success (sr : String → Bool) (o : Nat → Except String Unit)
    (hsr : sr "DependencyViolation" = true) :
    ∀ left k, (∀ j, k ≤ j → j < k + left → o j = Except.error "DependencyViolation") →
      o (k + left) = Except.ok () →
      retryLoopFrom sr o k left = (Except.ok (), k + left) := by
  intro left
  induction left with
  | zero =>
    intro k _ hok
    rw [Nat.add_zero] at hok
    unfold retryLoopFrom
    rw [hok]
    simp
  | succ l ih =>
    intro k hdep hok
    have hk : o k = Except.error "DependencyViolation" := hdep k le_rfl (by omega)
    have heq : k + 1 + l = k + (l + 1) := by omega
    have hrec := ih (k + 1) (fun j hj1 hj2 => hdep j (by omega) (by omega))
      (by rw [heq]; exact hok)
    unfold retryLoopFrom
    rw [hk]
    simp [hsr, hrec, heq]

/-- If every attempt fails with the dependency code, the retry loop stops
with that code at attempt `k + left`. -/
theorem retryLoopFrom_all_dep (sr : String → Bool) (o : Nat → Except String Unit)
    (hsr : sr "DependencyViolation" = true)
    (hall : ∀ j, o j = Except.error "DependencyViolation") :
    ∀ left k, retryLoopFrom sr o k left =
      (Except.error "DependencyViolation", k + left) := by
  intro left
  induction left with
  | zero =>
    intro k
    unfold retryLoopFrom
    rw [hall k]
    simp [hsr]
  | succ l ih =>
    intro k
    have heq : k + 1 + l = k + (l + 1) := by omega
    unfold retryLoopFrom
    rw [hall k]
    simp [hsr, ih (k + 1), heq]

/-- C2: `DeleteSecurityGroupByID` never makes an attempt beyond the 20th
(an attempt 21 is never made, whatever the outcomes); when attempts 1-19
fail with the `DependencyViolation` code and attempt 20 succeeds, the
overall call succeeds at attempt 20; when every attempt fails with that
code the call stops with it at attempt 20; and every failure code other
than `DependencyViolation` is decided by the wrapped default retry policy
unchanged. -/
theorem deleteSecurityGroupByID_retry_policy
    (d : String → Bool) (outcome : Nat → Except String Unit) :
    (DeleteSecurityGroupByID d outcome).2 ≤ 20 ∧
    ((∀ k, 1 ≤ k → k < 20 → outcome k = Except.error "DependencyViolation") →
      outcome 20 = Except.ok () →
      DeleteSecurityGroupByID d outcome = (Except.ok (), 20)) ∧
    ((∀ k, outcome k = Except.error "DependencyViolation") →
      DeleteSecurityGroupByID d outcome = (Except.error "DependencyViolation", 20)) ∧
    (∀ c, c ≠ "DependencyViolation" →
      deleteSecurityGroupRetryer.ShouldRetry { Retryer := d } c = d c) := by
  have hsr : deleteSecurityGroupRetryer.ShouldRetry { Retryer := d }
      "DependencyViolation" = true := by
    simp [deleteSecurityGroupRetryer.ShouldRetry]
  refine ⟨?_, ?_, ?_, ?_⟩
  · obtain ⟨res, n, heq, hle⟩ := retryLoopFrom_last_le
      (deleteSecurityGroupRetryer.ShouldRetry { Retryer := d }) outcome 19 1
    have hdel : DeleteSecurityGroupByID d outcome = (res, n) := by
      simpa [DeleteSecurityGroupByID, deleteSecurityGroupRetryer.MaxRetries] using heq
    rw [hdel]
    simpa using hle
  · intro hdep hok
    have h := retryLoopFrom_dep_success
      (deleteSecurityGroupRetryer.ShouldRetry { Retryer := d }) outcome hsr 19 1
      (fun j hj1 hj2 => hdep j hj1 (by omega)) (by simpa using hok)
    simpa [DeleteSecurityGroupByID, deleteSecurityGroupRetryer.MaxRetries] using h
  · intro hall
    have h := retryLoopFrom_all_dep
      (deleteSecurityGroupRetryer.ShouldRetry { Retryer := d }) outcome hsr hall 19 1
    simpa [DeleteSecurityGroupByID, deleteSecurityGroupRetryer.MaxRetries] using h
  · intro c hc
    simp [deleteSecurityGroupRetryer.ShouldRetry, hc]

/-- Closed instance of `deleteSecurityGroupByID_retry_policy`: with
dependency failures on attempts 1-19 and success on attempt 20 the delete
succeeds at attempt 20, within the bound. -/
theorem deleteSecurityGroupByID_retry_policy_witness :
    DeleteSecurityGroupByID (fun _ => false)
      (fun k => if k < 20 then Except.error "DependencyViolation" else Except.ok ()) =
      (Except.ok (), 20) ∧
    (DeleteSecurityGroupByID (fun _ => false)
      (fun k => if k < 20 then Except.error "DependencyViolation" else Except.ok ())).2
      ≤ 20 := by
  have h := deleteSecurityGroupByID_retry_policy (fun _ => false)
    (fun k => if k < 20 then Except.error "DependencyViolation" else Except.ok ())
  exact ⟨h.2.1 (fun k _ hk => by simp [hk]) (by norm_num), h.1⟩

/-- C6: `GetVPCID` resolves in the fixed order: a configured environment
override is returned with no network calls and no cache change; otherwise a
(non-expired) cached prior lookup is returned with no network calls;
otherwise the metadata identity document is fetched, the named instance
described, and a validated result is cached under the fixed key `""` with a
60-minute ttl and returned. -/
theorem getVPCID_resolution_order
    (now : Nat) (env : String) (mdDoc : Except String IdentityDocument)
    (di : String → Except String DescribeInstancesOutput) (cache : Cache) :
    (env ≠ "" →
      GetVPCID now env mdDoc di cache =
        { result := Except.ok env, cache := cache, calls := [] }) ∧
    (∀ v, env = "" → cacheGet now cache "EC2.GetVPCID" "" = some (CacheVal.str v) →
      GetVPCID now env mdDoc di cache =
        { result := Except.ok v, cache := cache, calls := [] }) ∧
    (∀ doc o, env = "" → cacheGet now cache "EC2.GetVPCID" "" = none →
      mdDoc = Except.ok doc → di doc.InstanceID = Except.ok o →
      instanceVPCIsValid o = Except.ok () →
      GetVPCID now env mdDoc di cache =
        { result := Except.ok (outputVpcId o),
          cache := cacheSet now cache "EC2.GetVPCID" "" (CacheVal.str (outputVpcId o)) 60,
          calls := ["EC2Metadata.GetInstanceIdentityDocument", "EC2.DescribeInstances"] }) := by
  refine ⟨?_, ?_, ?_⟩
  · intro h
    simp [GetVPCID, h]
  · intro v henv hcache
    subst henv
    simp [GetVPCID, hcache]
  · intro doc o henv hcache hmd hdi hvalid
    subst henv
    simp [GetVPCID, hcache, hmd, hdi, hvalid]

/-- Closed instance of `getVPCID_resolution_order`, one case per resolution
step: override, cache hit, and validated fallback. -/
theorem getVPCID_resolution_order_witness :
    GetVPCID 0 "vpc-x" (Except.error "e") (fun _ => Except.error "e") [] =
      { result := Except.ok "vpc-x", cache := [], calls := [] } ∧
    GetVPCID 0 "" (Except.error "e") (fun _ => Except.error "e")
      [⟨"EC2.GetVPCID", "", CacheVal.str "vpc-9", 5⟩] =
      { result := Except.ok "vpc-9",
        cache := [⟨"EC2.GetVPCID", "", CacheVal.str "vpc-9", 5⟩], calls := [] } ∧
    GetVPCID 0 "" (Except.ok ⟨"i-1"⟩)
      (fun _ => Except.ok ⟨[⟨[⟨some "vpc-123"⟩]⟩]⟩) [] =
      { result := Except.ok (outputVpcId ⟨[⟨[⟨some "vpc-123"⟩]⟩]⟩),
        cache := cacheSet 0 [] "EC2.GetVPCID" ""
          (CacheVal.str (outputVpcId ⟨[⟨[⟨some "vpc-123"⟩]⟩]⟩)) 60,
        calls := ["EC2Metadata.GetInstanceIdentityDocument", "EC2.DescribeInstances"] } := by
  refine ⟨(getVPCID_resolution_order 0 "vpc-x" (Except.error "e")
      (fun _ => Except.error "e") []).1 (by decide),
    (getVPCID_resolution_order 0 "" (Except.error "e") (fun _ => Except.error "e")
      [⟨"EC2.GetVPCID", "", CacheVal.str "vpc-9", 5⟩]).2.1 "vpc-9" rfl (by decide),
    (getVPCID_resolution_order 0 "" (Except.ok ⟨"i-1"⟩)
      (fun _ => Except.ok ⟨[⟨[⟨some "vpc-123"⟩]⟩]⟩) []).2.2 ⟨"i-1"⟩
      ⟨[⟨[⟨some "vpc-123"⟩]⟩]⟩ rfl (by decide) rfl rfl (by decide)⟩

/-- C8: on a cache miss whose status query succeeds without an entry for
the instance id, `IsNodeHealthy` returns `false` and leaves the cache
unchanged, so an immediately following call issues a fresh query; when a
matching entry exists, the first one decides the verdict — `true` exactly
when its state code is the canonical running code 16 — and the verdict is
cached with the 5-minute ttl and returned. -/
theorem isNodeHealthy_absent_no_cache_write
    (now : Nat) (id : String) (ds : String → Except String (List InstanceStatus))
    (cache : Cache) (sts : List InstanceStatus) :
    (cacheGet now cache "ec2.IsNodeHealthy" id = none →
      ds id = Except.ok sts →
      scanInstanceStatuses id sts = none →
      IsNodeHealthy now id ds cache =
        { healthy := false, err := none, cache := cache, queried := true } ∧
      (IsNodeHealthy now id ds (IsNodeHealthy now id ds cache).cache).queried = true) ∧
    (∀ b, cacheGet now cache "ec2.IsNodeHealthy" id = none →
      ds id = Except.ok sts →
      scanInstanceStatuses id sts = some b →
      IsNodeHealthy now id ds cache =
        { healthy := b, err := none,
          cache := cacheSet now cache "ec2.IsNodeHealthy" id (CacheVal.boolean b)
            IsNodeHealthyCacheTTL,
          queried := true }) ∧
    (∀ st : InstanceStatus, st.InstanceId = id →
      scanInstanceStatuses id [st] = some (decide (st.Code = 16))) ∧
    IsNodeHealthyCacheTTL = 5 := by
  refine ⟨?_, ?_, ?_, rfl⟩
  · intro hcache hds hscan
    have h1 : IsNodeHealthy now id ds cache =
        { healthy := false, err := none, cache := cache, queried := true } := by
      simp [IsNodeHealthy, hcache, hds, hscan]
    refine ⟨h1, ?_⟩
    rw [h1]
    simp [IsNodeHealthy, hcache, hds, hscan]
  · intro b hcache hds hscan
    simp [IsNodeHealthy, hcache, hds, hscan]
  · intro st h
    by_cases hc : st.Code = 16 <;> simp [scanInstanceStatuses, h, hc]

/-- Closed instance of `isNodeHealthy_absent_no_cache_write`: an absent id
yields `false` with no cache write and a repeated query; a present id with
the running code yields a cached `true` verdict. -/
theorem isNodeHealthy_absent_no_cache_write_witness :
    IsNodeHealthy 0 "i-1" (fun _ => Except.ok [⟨"i-2", 16⟩]) [] =
      { healthy := false, err := none, cache := [], queried := true } ∧
    (IsNodeHealthy 0 "i-1" (fun _ => Except.ok [⟨"i-2", 16⟩])
      (IsNodeHealthy 0 "i-1" (fun _ => Except.ok [⟨"i-2", 16⟩]) []).cache).queried =
      true ∧
    IsNodeHealthy 0 "i-1" (fun _ => Except.ok [⟨"i-1", 16⟩]) [] =
      { healthy := true, err := none,
        cache := cacheSet 0 [] "ec2.IsNodeHealthy" "i-1" (CacheVal.boolean true)
          IsNodeHealthyCacheTTL,
        queried := true } := by
  have h1 := (isNodeHealthy_absent_no_cache_write 0 "i-1"
    (fun _ => Except.ok [⟨"i-2", 16⟩]) [] [⟨"i-2", 16⟩]).1 (by decide) rfl (by decide)
  have h2 := (isNodeHealthy_absent_no_cache_write 0 "i-1"
    (fun _ => Except.ok [⟨"i-1", 16⟩]) [] [⟨"i-1", 16⟩]).2.1 true (by decide) rfl
    (by decide)
  exact ⟨h1.1, h1.2, h2⟩

/-- C10: when the batched describe query of `GetSubnets` or
`GetSecurityGroups` fails, the operation returns a non-nil error together
with the identifiers already resolved from cache hits in that same call. -/
theorem getResolvers_partial_on_error
    (now : Nat) (env : String) (mdDoc : Except String IdentityDocument)
    (di : String → Except String DescribeInstancesOutput)
    (cache : Cache) (names : List String) (vpcID e : String) :
    (∀ (dsub : DescribeSubnetsInput → Except String (List Subnet))
      (hits misses : List String),
      (GetVPCID now env mdDoc di cache).result = Except.ok vpcID →
      partitionCached now (GetVPCID now env mdDoc di cache).cache "EC2.GetSubnets"
        names = Except.ok (hits, misses) →
      misses ≠ [] →
      dsub { Filters := [ { Name := "tag:Name", Values := names },
                          { Name := "vpc-id", Values := [vpcID] } ] } = Except.error e →
      (GetSubnets now env mdDoc di dsub cache names).ids = hits ∧
      (GetSubnets now env mdDoc di dsub cache names).err =
        some ("Unable to fetch subnets: " ++ e)) ∧
    (∀ (dsg : DescribeSubnetsInput → Except String (List SecurityGroup))
      (hits misses : List String),
      (GetVPCID now env mdDoc di cache).result = Except.ok vpcID →
      partitionCached now (GetVPCID now env mdDoc di cache).cache
        "EC2.GetSecurityGroups" names = Except.ok (hits, misses) →
      misses ≠ [] →
      dsg { Filters := [ { Name := "tag:Name", Values := misses },
                         { Name := "vpc-id", Values := [vpcID] } ] } = Except.error e →
      (GetSecurityGroups now env mdDoc di dsg cache names).ids = hits ∧
      (GetSecurityGroups now env mdDoc di dsg cache names).err =
        some ("Unable to fetch security groups: " ++ e)) := by
  constructor
  · intro dsub hits misses hvpc hpart hmiss hd
    constructor <;> simp [GetSubnets, hvpc, hpart, hmiss, hd]
  · intro dsg hits misses hvpc hpart hmiss hd
    constructor <;> simp [GetSecurityGroups, hvpc, hpart, hmiss, hd]

/-- Closed instance of `getResolvers_partial_on_error`: with one cache hit
each and a failing describe, both resolvers return the cached identifier
together with the error. -/
theorem getResolvers_partial_on_error_witness :
    ((GetSubnets 0 "vpc-1" (Except.error "unused") (fun _ => Except.error "unused")
      (fun _ => Except.error "boom")
      [⟨"EC2.GetSubnets", "subnet-a", CacheVal.str "subnet-001", 100⟩]
      ["subnet-a", "subnet-b"]).ids = ["subnet-001"] ∧
    (GetSubnets 0 "vpc-1" (Except.error "unused") (fun _ => Except.error "unused")
      (fun _ => Except.error "boom")
      [⟨"EC2.GetSubnets", "subnet-a", CacheVal.str "subnet-001", 100⟩]
      ["subnet-a", "subnet-b"]).err = some ("Unable to fetch subnets: " ++ "boom")) ∧
    ((GetSecurityGroups 0 "vpc-1" (Except.error "unused")
      (fun _ => Except.error "unused") (fun _ => Except.error "boom")
      [⟨"EC2.GetSecurityGroups", "sg-a", CacheVal.str "sg-001", 100⟩]
      ["sg-a", "sg-b"]).ids = ["sg-001"] ∧
    (GetSecurityGroups 0 "vpc-1" (Except.error "unused")
      (fun _ => Except.error "unused") (fun _ => Except.error "boom")
      [⟨"EC2.GetSecurityGroups", "sg-a", CacheVal.str "sg-001", 100⟩]
      ["sg-a", "sg-b"]).err = some ("Unable to fetch security groups: " ++ "boom")) := by
  constructor
  · exact (getResolvers_partial_on_error 0 "vpc-1" (Except.error "unused")
      (fun _ => Except.error "unused")
      [⟨"EC2.GetSubnets", "subnet-a", CacheVal.str "subnet-001", 100⟩]
      ["subnet-a", "subnet-b"] "vpc-1" "boom").1 (fun _ => Except.error "boom")
      ["subnet-001"] ["subnet-b"] rfl (by decide) (by decide) rfl
  · exact (getResolvers_partial_on_error 0 "vpc-1" (Except.error "unused")
      (fun _ => Except.error "unused")
      [⟨"EC2.GetSecurityGroups", "sg-a", CacheVal.str "sg-001", 100⟩]
      ["sg-a", "sg-b"] "vpc-1" "boom").2 (fun _ => Except.error "boom")
      ["sg-001"] ["sg-b"] rfl (by decide) (by decide) rfl

/-- A cache write under one key never changes what a read under a different
key of the same namespace observes. -/
theorem cacheGet_cacheSet_ne (now now' : Nat) (c : Cache) (ns k k' : String)
    (v : CacheVal) (ttl : Nat) (h : k ≠ k') :
    cacheGet now' (cacheSet now c ns k v ttl) ns k' = cacheGet now' c ns k' := by
  unfold cacheGet cacheSet
  simp [List.find?_cons, h]

/-- C5 (amended): `GetVPCID` and `GetVPC` share the cache namespace
`"EC2.GetVPCID"`, with `GetVPCID` under the fixed key `""` and `GetVPC`
under the requested id; whenever `GetVPC` is invoked with a non-empty id,
neither operation's cache read can observe the other's write: a `GetVPCID`
run leaves the entry `GetVPC` reads untouched, and a `GetVPC` run leaves
the entry `GetVPCID` reads untouched. -/
theorem getVPC_getVPCID_cache_isolation
    (now : Nat) (id env : String) (mdDoc : Except String IdentityDocument)
    (di : String → Except String DescribeInstancesOutput)
    (dv : String → Except String (List Vpc)) (cache : Cache)
    (h : id ≠ "") :
    cacheGet now (GetVPCID now env mdDoc di cache).cache "EC2.GetVPCID" id =
      cacheGet now cache "EC2.GetVPCID" id ∧
    cacheGet now (GetVPC now id dv cache).cache "EC2.GetVPCID" "" =
      cacheGet now cache "EC2.GetVPCID" "" := by
  constructor
  · unfold GetVPCID
    split
    · rfl
    · split
      · rfl
      · rfl
      · split
        · rfl
        · split
          · rfl
          · split
            · rfl
            · exact cacheGet_cacheSet_ne now now cache "EC2.GetVPCID" "" id _ 60
                (Ne.symm h)
  · unfold GetVPC
    split
    · rfl
    · rfl
    · split
      · rfl
      · split
        · rfl
        · exact cacheGet_cacheSet_ne now now cache "EC2.GetVPCID" id "" _ 60 h

/-- Closed instance of `getVPC_getVPCID_cache_isolation` at the non-empty
id `"vpc-1"`. -/
theorem getVPC_getVPCID_cache_isolation_witness :
    cacheGet 0 (GetVPCID 0 "" (Except.ok ⟨"i-1"⟩)
      (fun _ => Except.ok ⟨[⟨[⟨some "vpc-123"⟩]⟩]⟩) []).cache "EC2.GetVPCID" "vpc-1" =
      cacheGet 0 [] "EC2.GetVPCID" "vpc-1" ∧
    cacheGet 0 (GetVPC 0 "vpc-1" (fun _ => Except.ok [⟨"vpc-1"⟩]) []).cache
      "EC2.GetVPCID" "" = cacheGet 0 [] "EC2.GetVPCID" "" :=
  getVPC_getVPCID_cache_isolation 0 "vpc-1" "" (Except.ok ⟨"i-1"⟩)
    (fun _ => Except.ok ⟨[⟨[⟨some "vpc-123"⟩]⟩]⟩)
    (fun _ => Except.ok [⟨"vpc-1"⟩]) [] (by decide)

/-- C1 (amended): whenever the candidate scan leaves at least one cache
miss, a successful describe whose admitted (availability-zone-deduplicated)
set still has fewer than 2 members makes `ClusterSubnets` fail with the
diversity error, which names the cluster ownership tag key, the internal
role tag key, and the prettified partial set found. (When every candidate
is a cache hit the check is skipped — see the counterexample.) -/
theorem clusterSubnets_min_two_admitted_error
    (now : Nat) (scheme key : String)
    (resources : List (String × List (String × String)))
    (dsub : DescribeSubnetsInput → Except String (List Subnet))
    (cache : Cache) (acc : ScanAcc) (fetched : List Subnet)
    (hkey : clusterSubnetsTagKey scheme = Except.ok key)
    (hscan : clusterScanResources now cache key resources ⟨[], [], []⟩ = Except.ok acc)
    (hfv : acc.filterValues ≠ [])
    (hd : dsub { Filters := [ { Name := "subnet-id", Values := acc.filterValues } ] } =
      Except.ok fetched)
    (hlt : (clusterAdmitFetched now fetched acc.useableSubnets acc.out cache).2.1.length
      < 2) :
    (ClusterSubnets now scheme (Except.ok resources) dsub cache).result =
      Except.error (clusterSubnetsDiversityError
        (clusterAdmitFetched now fetched acc.useableSubnets acc.out cache).2.1) ∧
    ∃ s1 s2 s3 s4 : String,
      clusterSubnetsDiversityError
        (clusterAdmitFetched now fetched acc.useableSubnets acc.out cache).2.1 =
      s1 ++ tagNameCluster ++ s2 ++ tagNameSubnetInternalELB ++ s3 ++
        Prettify (clusterAdmitFetched now fetched acc.useableSubnets acc.out cache).2.1
        ++ s4 := by
  constructor
  · rcases hadm : clusterAdmitFetched now fetched acc.useableSubnets acc.out cache with
      ⟨u2, out2, c2⟩
    rw [hadm] at hlt
    simp only at hlt
    simp [ClusterSubnets, hkey, hscan, hfv, hd, hadm, hlt]
  · exact ⟨"Retrieval of subnets failed to resolve 2 qualified subnets. Subnets must contain the ",
      "/<cluster name> tag with a value of shared or owned and the ",
      " tag signifying it should be used for ALBs Additionally, there must be at least 2 subnets with unique availability zones as required by ALBs. Either tag subnets to meet this requirement or use the subnets annotation on the ingress resource to explicitly call out what subnets to use for ALB creation. The subnets that did resolve were ",
      ".", rfl⟩

/-- Closed instance of `clusterSubnets_min_two_admitted_error`: one cache
miss resolving to a single admitted subnet makes the call fail with the
diversity error naming the tag keys and the partial set. -/
theorem clusterSubnets_min_two_admitted_error_witness :
    (ClusterSubnets 0 "internal"
      (Except.ok [("arn:aws:ec2:us:acct:subnet/subnet-1",
        [(tagNameSubnetInternalELB, "")])])
      (fun _ => Except.ok [⟨"subnet-1", "az-a", []⟩]) []).result =
      Except.error (clusterSubnetsDiversityError
        (clusterAdmitFetched 0 [⟨"subnet-1", "az-a", []⟩] [] [] []).2.1) ∧
    ∃ s1 s2 s3 s4 : String,
      clusterSubnetsDiversityError
        (clusterAdmitFetched 0 [⟨"subnet-1", "az-a", []⟩] [] [] []).2.1 =
      s1 ++ tagNameCluster ++ s2 ++ tagNameSubnetInternalELB ++ s3 ++
        Prettify (clusterAdmitFetched 0 [⟨"subnet-1", "az-a", []⟩] [] [] []).2.1 ++ s4 :=
  clusterSubnets_min_two_admitted_error 0 "internal" tagNameSubnetInternalELB
    [("arn:aws:ec2:us:acct:subnet/subnet-1", [(tagNameSubnetInternalELB, "")])]
    (fun _ => Except.ok [⟨"subnet-1", "az-a", []⟩]) [] ⟨[], [], ["subnet-1"]⟩
    [⟨"subnet-1", "az-a", []⟩] (by decide) (by decide) (by decide) rfl (by decide)

/-- `subnetIsUsable` accepts a candidate exactly when its availability zone
differs from every already-admitted subnet's. -/
theorem subnetIsUsable_eq_true_iff (s : Subnet) :
    ∀ l : List Subnet, subnetIsUsable s l = true ↔
      ∀ a ∈ l, s.AvailabilityZone ≠ a.AvailabilityZone := by
  intro l
  induction l with
  | nil => simp [subnetIsUsable]
  | cons x rest ih =>
    by_cases h : s.AvailabilityZone = x.AvailabilityZone <;>
      simp [subnetIsUsable, h, ih]

/-- An accepted candidate is appended to the admitted list. -/
theorem admitStep_pos {s : Subnet} {acc : List Subnet}
    (hu : subnetIsUsable s acc = true) : admitStep acc s = acc ++ [s] := by
  unfold admitStep
  rw [if_pos hu]

/-- A rejected candidate leaves the admitted list unchanged. -/
theorem admitStep_neg {s : Subnet} {acc : List Subnet}
    (hu : ¬subnetIsUsable s acc = true) : admitStep acc s = acc := by
  unfold admitStep
  rw [if_neg hu]

/-- One admission step preserves pairwise-distinct availability zones. -/
theorem admitStep_pairwise (acc : List Subnet) (s : Subnet)
    (h : List.Pairwise (fun a b => a.AvailabilityZone ≠ b.AvailabilityZone) acc) :
    List.Pairwise (fun a b => a.AvailabilityZone ≠ b.AvailabilityZone)
      (admitStep acc s) := by
  unfold admitStep
  by_cases hu : subnetIsUsable s acc = true
  · simp only [hu, if_true]
    rw [List.pairwise_append]
    refine ⟨h, List.pairwise_singleton _ _, ?_⟩
    intro a ha b hb
    simp only [List.mem_singleton] at hb
    rw [hb]
    exact fun hEq => (subnetIsUsable_eq_true_iff s acc).1 hu a ha hEq.symm
  · simp only [hu]
    simp only [Bool.false_eq_true, if_false]
    exact h

/-- First-seen-wins admission preserves pairwise-distinct availability
zones, whatever the starting admitted list. -/
theorem foldl_admitStep_pairwise :
    ∀ (cands acc : List Subnet),
      List.Pairwise (fun a b => a.AvailabilityZone ≠ b.AvailabilityZone) acc →
      List.Pairwise (fun a b => a.AvailabilityZone ≠ b.AvailabilityZone)
        (List.foldl admitStep acc cands) := by
  intro cands
  induction cands with
  | nil => intro acc h; exact h
  | cons s rest ih =>
    intro acc h
    simp only [List.foldl_cons]
    exact ih _ (admitStep_pairwise acc s h)

/-- The inner tag loop of `ClusterSubnets` admits exactly the first-seen-wins
fold of the cache hits it encounters, and keeps `out` as the ids of the
admitted subnets. -/
theorem clusterScanTags_spec (now : Nat) (cache : Cache) (key sid : String) :
    ∀ (tags : List (String × String)) (acc acc' : ScanAcc),
      clusterScanTags now cache key sid tags acc = Except.ok acc' →
      acc'.useableSubnets = List.foldl admitStep acc.useableSubnets
        (clusterTagHitList now cache key sid tags) ∧
      (acc.out = acc.useableSubnets.map Subnet.SubnetId →
        acc'.out = acc'.useableSubnets.map Subnet.SubnetId) := by
  intro tags
  induction tags with
  | nil =>
    intro acc acc' h
    simp [clusterScanTags] at h
    subst h
    simp [clusterTagHitList]
  | cons t rest ih =>
    intro acc acc' h
    by_cases ht : t.1 = key
    · cases hcg : cacheGet now cache "ClusterSubnets" sid with
      | none =>
        simp only [clusterScanTags, ht, if_true, hcg] at h
        obtain ⟨h1, h2⟩ := ih _ acc' h
        simp only [clusterTagHitList, ht, if_true, hcg]
        exact ⟨h1, h2⟩
      | some v =>
        cases v with
        | subnet s =>
          simp only [clusterScanTags, ht, if_true, hcg] at h
          obtain ⟨h1, h2⟩ := ih _ acc' h
          simp only [clusterTagHitList, ht, if_true, hcg]
          by_cases hu : subnetIsUsable s acc.useableSubnets = true
          · simp only [hu, if_true] at h1 h2
            constructor
            · rw [h1]
              simp only [List.foldl_cons]
              rw [admitStep_pos hu]
            · intro ho
              exact h2 (by simp [ho, List.map_append])
          · simp only [hu, Bool.false_eq_true, if_false] at h1 h2
            constructor
            · rw [h1]
              simp only [List.foldl_cons]
              rw [admitStep_neg hu]
            · exact h2
        | str s => simp [clusterScanTags, ht, hcg] at h
        | vpc v => simp [clusterScanTags, ht, hcg] at h
        | boolean b => simp [clusterScanTags, ht, hcg] at h
    · simp only [clusterScanTags, ht, if_false] at h
      obtain ⟨h1, h2⟩ := ih acc acc' h
      simp only [clusterTagHitList, ht, if_false]
      exact ⟨h1, h2⟩

/-- The candidate scan of `ClusterSubnets` admits exactly the first-seen-wins
fold of the cache hits in discovery order, and keeps `out` as the ids of
the admitted subnets. -/
theorem clusterScanResources_spec (now : Nat) (cache : Cache) (key : String) :
    ∀ (rs : List (String × List (String × String))) (acc acc' : ScanAcc),
      clusterScanResources now cache key rs acc = Except.ok acc' →
      acc'.useableSubnets = List.foldl admitStep acc.useableSubnets
        (clusterHitList now cache key rs) ∧
      (acc.out = acc.useableSubnets.map Subnet.SubnetId →
        acc'.out = acc'.useableSubnets.map Subnet.SubnetId) := by
  intro rs
  induction rs with
  | nil =>
    intro acc acc' h
    simp [clusterScanResources] at h
    subst h
    simp [clusterHitList]
  | cons r rest ih =>
    obtain ⟨arn, tags⟩ := r
    intro acc acc' h
    cases hT : clusterScanTags now cache key (arnSubnetID arn) tags acc with
    | error e => simp [clusterScanResources, hT] at h
    | ok accM =>
      simp only [clusterScanResources, hT] at h
      obtain ⟨h1, h2⟩ := clusterScanTags_spec now cache key (arnSubnetID arn) tags acc
        accM hT
      obtain ⟨h3, h4⟩ := ih accM acc' h
      constructor
      · rw [h3, h1]
        simp only [clusterHitList]
        rw [List.foldl_append]
      · intro h5
        exact h4 (h2 h5)

/-- The post-describe admission loop of `ClusterSubnets` admits exactly the
first-seen-wins fold of the fetched subnets, and keeps `out` as the ids of
the admitted subnets. -/
theorem clusterAdmitFetched_spec (now : Nat) :
    ∀ (fetched useable : List Subnet) (out : List String) (c : Cache),
      (clusterAdmitFetched now fetched useable out c).1 =
        List.foldl admitStep useable fetched ∧
      (out = useable.map Subnet.SubnetId →
        (clusterAdmitFetched now fetched useable out c).2.1 =
          (clusterAdmitFetched now fetched useable out c).1.map Subnet.SubnetId) := by
  intro fetched
  induction fetched with
  | nil =>
    intro useable out c
    simp [clusterAdmitFetched]
  | cons s rest ih =>
    intro useable out c
    by_cases hu : subnetIsUsable s useable = true
    · simp only [clusterAdmitFetched, hu, if_true]
      obtain ⟨h1, h2⟩ := ih (useable ++ [s]) (out ++ [s.SubnetId])
        (cacheSet now c "ClusterSubnets" s.SubnetId (CacheVal.subnet s) 60)
      constructor
      · rw [h1]
        simp only [List.foldl_cons]
        rw [admitStep_pos hu]
      · intro ho
        exact h2 (by simp [ho, List.map_append])
    · simp only [clusterAdmitFetched, hu, Bool.false_eq_true, if_false]
      obtain ⟨h1, h2⟩ := ih useable out c
      constructor
      · rw [h1]
        simp only [List.foldl_cons]
        rw [admitStep_neg hu]
      · exact h2

/-- C4: every successful `ClusterSubnets` run returns exactly the sorted
ids of the first-seen-wins availability-zone deduplication over the
discovery sequence (cache hits in discovery order followed by the fetched
subnets, empty when no describe was needed), the returned ids are a
permutation of those admitted ids, and the admitted subnets are pairwise in
distinct availability zones — so no two returned identifiers belong to
subnets sharing a zone. -/
theorem clusterSubnets_az_dedup
    (now : Nat) (scheme key : String)
    (resources : List (String × List (String × String)))
    (dsub : DescribeSubnetsInput → Except String (List Subnet))
    (cache : Cache) (ids : List String)
    (hkey : clusterSubnetsTagKey scheme = Except.ok key)
    (hok : (ClusterSubnets now scheme (Except.ok resources) dsub cache).result =
      Except.ok ids) :
    ∃ fetched : List Subnet,
      (fetched = [] ∨ ∃ fv : List String,
        dsub { Filters := [ { Name := "subnet-id", Values := fv } ] } =
          Except.ok fetched) ∧
      ids = sortStrings ((admitFold (clusterHitList now cache key resources ++ fetched)).map
        Subnet.SubnetId) ∧
      ids.Perm ((admitFold (clusterHitList now cache key resources ++ fetched)).map
        Subnet.SubnetId) ∧
      (admitFold (clusterHitList now cache key resources ++ fetched)).Pairwise
        (fun a b => a.AvailabilityZone ≠ b.AvailabilityZone) := by
  cases hscan : clusterScanResources now cache key resources ⟨[], [], []⟩ with
  | error e => simp [ClusterSubnets, hkey, hscan] at hok
  | ok acc =>
    obtain ⟨huse, hout⟩ := clusterScanResources_spec now cache key resources _ acc hscan
    simp only at huse
    have hout' : acc.out = acc.useableSubnets.map Subnet.SubnetId := hout (by simp)
    by_cases hfv : acc.filterValues = []
    · simp only [ClusterSubnets, hkey, hscan, hfv, if_true] at hok
      refine ⟨[], Or.inl rfl, ?_, ?_, ?_⟩
      · rw [List.append_nil]
        simp only [admitFold]
        rw [← huse, ← hout']
        simpa using hok.symm
      · rw [List.append_nil]
        simp only [admitFold]
        rw [← huse, ← hout']
        have : ids = sortStrings acc.out := by simpa using hok.symm
        rw [this]
        exact List.perm_insertionSort _ _
      · rw [List.append_nil]
        simp only [admitFold]
        exact foldl_admitStep_pairwise _ _ List.Pairwise.nil
    · cases hd : dsub ⟨[⟨"subnet-id", acc.filterValues⟩]⟩ with
      | error e => simp [ClusterSubnets, hkey, hscan, hfv, hd] at hok
      | ok fetched =>
        obtain ⟨hadm1, hadm2⟩ := clusterAdmitFetched_spec now fetched
          acc.useableSubnets acc.out cache
        have hadm2' := hadm2 hout'
        rcases hadmEq : clusterAdmitFetched now fetched acc.useableSubnets acc.out cache
          with ⟨u2, out2, c2⟩
        rw [hadmEq] at hadm1 hadm2'
        simp only at hadm1 hadm2'
        by_cases hlen : out2.length < 2
        · simp [ClusterSubnets, hkey, hscan, hfv, hd, hadmEq, hlen] at hok
        · simp only [ClusterSubnets, hkey, hscan, hfv, hd, hadmEq, hlen, if_false] at hok
          have hids : ids = sortStrings out2 := by simpa using hok.symm
          have hfold : u2 = admitFold (clusterHitList now cache key resources ++ fetched) := by
            rw [hadm1, huse]
            simp only [admitFold]
            rw [List.foldl_append]
          refine ⟨fetched, Or.inr ⟨acc.filterValues, hd⟩, ?_, ?_, ?_⟩
          · rw [← hfold, ← hadm2']
            exact hids
          · rw [← hfold, ← hadm2', hids]
            exact List.perm_insertionSort _ _
          · rw [← hfold]
            rw [hadm1]
            exact foldl_admitStep_pairwise _ _
              (by rw [huse]; exact foldl_admitStep_pairwise _ _ List.Pairwise.nil)

/-- Closed instance of `clusterSubnets_az_dedup`: a run with one cache hit
and one fetched subnet in distinct zones. -/
theorem clusterSubnets_az_dedup_witness :
    ∃ fetched : List Subnet,
      (fetched = [] ∨ ∃ fv : List String,
        (fun (_ : DescribeSubnetsInput) =>
            (Except.ok [(⟨"subnet-2", "az-b", []⟩ : Subnet)] :
              Except String (List Subnet)))
          { Filters := [ { Name := "subnet-id", Values := fv } ] } =
          Except.ok fetched) ∧
      ["subnet-1", "subnet-2"] = sortStrings ((admitFold (clusterHitList 0
        [⟨"ClusterSubnets", "subnet-1", CacheVal.subnet ⟨"subnet-1", "az-a", []⟩, 100⟩]
        tagNameSubnetInternalELB
        [("arn:a/subnet-1", [(tagNameSubnetInternalELB, "")]),
         ("arn:a/subnet-2", [(tagNameSubnetInternalELB, "")])] ++ fetched)).map
        Subnet.SubnetId) ∧
      List.Perm ["subnet-1", "subnet-2"] ((admitFold (clusterHitList 0
        [⟨"ClusterSubnets", "subnet-1", CacheVal.subnet ⟨"subnet-1", "az-a", []⟩, 100⟩]
        tagNameSubnetInternalELB
        [("arn:a/subnet-1", [(tagNameSubnetInternalELB, "")]),
         ("arn:a/subnet-2", [(tagNameSubnetInternalELB, "")])] ++ fetched)).map
        Subnet.SubnetId) ∧
      (admitFold (clusterHitList 0
        [⟨"ClusterSubnets", "subnet-1", CacheVal.subnet ⟨"subnet-1", "az-a", []⟩, 100⟩]
        tagNameSubnetInternalELB
        [("arn:a/subnet-1", [(tagNameSubnetInternalELB, "")]),
         ("arn:a/subnet-2", [(tagNameSubnetInternalELB, "")])] ++ fetched)).Pairwise
        (fun a b => a.AvailabilityZone ≠ b.AvailabilityZone) :=
  clusterSubnets_az_dedup 0 "internal" tagNameSubnetInternalELB
    [("arn:a/subnet-1", [(tagNameSubnetInternalELB, "")]),
     ("arn:a/subnet-2", [(tagNameSubnetInternalELB, "")])]
    (fun _ => Except.ok [⟨"subnet-2", "az-b", []⟩])
    [⟨"ClusterSubnets", "subnet-1", CacheVal.subnet ⟨"subnet-1", "az-a", []⟩, 100⟩]
    ["subnet-1", "subnet-2"] (by decide) (by decide)

end albec2

